import Mathlib

/-!
Verification of the GMLAB ST4 MIDI thru-box routing engine.

This file is a shallow embedding of the Arduino sketch `GMLAB_ST4.ino`:
the global state of the sketch becomes an explicit state record, and the
body of `loop()` (the MIDI event dispatch) becomes a pure state-transition
function `processEvent` that also records the observable outputs of one
event: the arguments of the `SetPort` calls it makes, the messages handed
to the serial MIDI sink, the byte triples handed to `UsbMidiSend`, and the
USB packets that actually pass the USB gate inside `UsbMidiSend`.

Machine integers (`char` / `byte` on AVR) are modelled as `Nat` carrying
the same bit pattern; the one place where byte overflow matters
(`Channel -= 1` in `UsbMidiSend`) is written with an explicit `% 256`.
-/

namespace ST4

/-- Function update on `Nat`-indexed tables, modelling a C array store. -/
def updf {α : Type} (f : Nat → α) (i : Nat) (v : α) : Nat → α :=
  fun j => if j = i then v else f j

/-- One entry of the note / sustain memory: `struct NoteMemory { char Status, Port; }`. -/
structure NoteMemory where
  Status : Nat
  Port : Nat
deriving DecidableEq, Repr

/-- The global state of the sketch. -/
structure ST4State where
  /-- `char PortStatus` — the active port bitmask selected by the buttons. -/
  PortStatus : Nat
  /-- `char USBPort` — the USB gate flag, set by `SetPort` to `port & 1`. -/
  USBPort : Nat
  /-- The four multiplexer select lines (`digitalWrite(MuxPins[i], ...)`). -/
  MuxLines : Nat → Nat
  /-- The four button LEDs (`digitalWrite(ButtonLeds[i], ...)`). -/
  ButtonLeds : Nat → Nat
  /-- `char ButtonStatus[4]` — last observed level per button. -/
  ButtonStatus : Nat → Nat
  /-- `NoteMemory NoteMem[128]` — per-note capture table. -/
  NoteMem : Nat → NoteMemory
  /-- `NoteMemory SustainPedal[16]` — per-channel sustain capture table. -/
  SustainPedal : Nat → NoteMemory
  /-- The persisted byte at EEPROM address 8. -/
  EEPROM8 : Nat

/-- A parsed incoming MIDI event as delivered by the MIDI library:
`type` is the status kind (0x80, 0x90, 0xB0, 0xC0, 0xD0, 0xE0),
`channel` is in 1..16, `data1`/`data2` are the 7-bit data bytes. -/
structure MidiMsg where
  type : Nat
  data1 : Nat
  data2 : Nat
  channel : Nat
deriving DecidableEq, Repr

/-- A message handed to the serial MIDI sink (`MIDI.sendXxx` calls). -/
inductive SerialMsg where
  | noteOn (note vel ch : Nat)
  | noteOff (note vel ch : Nat)
  | controlChange (num val ch : Nat)
  | programChange (num ch : Nat)
  | afterTouch (pressure ch : Nat)
  | pitchBend (value : Int) (ch : Nat)
deriving DecidableEq, Repr

/-- The channel argument carried by a serial sink message. -/
def serialChannel : SerialMsg → Nat
  | .noteOn _ _ ch => ch
  | .noteOff _ _ ch => ch
  | .controlChange _ _ ch => ch
  | .programChange _ ch => ch
  | .afterTouch _ ch => ch
  | .pitchBend _ ch => ch

/-- A `midiEventPacket_t` as built inside `UsbMidiSend`. -/
structure UsbPacket where
  header : Nat
  byte1 : Nat
  byte2 : Nat
  byte3 : Nat
deriving DecidableEq, Repr

/-- `UsbMidiSend(byte b1, byte b2, byte b3)`: returns `none` when the USB
gate (`USBPort`) is off, otherwise the packet sent.  `Channel -= 1` is
byte arithmetic, hence the explicit `% 256`. -/
def UsbMidiSend (usbPort b1 b2 b3 : Nat) : Option UsbPacket :=
  if usbPort = 0 then none
  else
    let status := b1 &&& 0xF0
    let channel := ((b1 &&& 0x0F) + 255) % 256
    some ⟨status >>> 4, status ||| channel, b2, b3⟩

/-- `SetPort(char port)`: sets the USB gate to `port & 1` and drives the
four multiplexer select lines to the bits of `port`. -/
def SetPort (s : ST4State) (port : Nat) : ST4State :=
  { s with
    USBPort := port &&& 1
    MuxLines := fun i => if i < 4 then (port >>> i) &&& 1 else s.MuxLines i }

/-- The observable output of processing one MIDI event: the masks passed
to `SetPort`, the serial sink messages, the byte triples passed to
`UsbMidiSend`, and the USB packets that passed the gate. -/
structure Trace where
  setPortCalls : List Nat
  serial : List SerialMsg
  usbSends : List (Nat × Nat × Nat)
  usb : List UsbPacket
deriving DecidableEq, Repr

/-- The MIDI dispatch of `loop()`: one incoming event, the resulting
state and observable outputs.  Mirrors the `switch (MIDI.getType())`. -/
def processEvent (s : ST4State) (m : MidiMsg) : ST4State × Trace :=
  if m.type = 0x90 then
    -- NoteOn: remember status and port, route the live mask, emit
    let s1 := { s with NoteMem := updf s.NoteMem m.data1 ⟨1, s.PortStatus⟩ }
    let s2 := SetPort s1 s1.PortStatus
    (s2, ⟨[s1.PortStatus],
          [.noteOn m.data1 m.data2 m.channel],
          [(0x90 ||| m.channel, m.data1, m.data2)],
          (UsbMidiSend s2.USBPort (0x90 ||| m.channel) m.data1 m.data2).toList⟩)
  else if m.type = 0x80 then
    -- NoteOff: only forwarded if this note was on
    if (s.NoteMem m.data1).Status ≠ 0 then
      let s1 := { s with
        NoteMem := updf s.NoteMem m.data1 ⟨0, (s.NoteMem m.data1).Port⟩ }
      let s2 := SetPort s1 (s1.NoteMem m.data1).Port
      (s2, ⟨[(s1.NoteMem m.data1).Port],
            [.noteOff m.data1 m.data2 m.channel],
            [(0x80 ||| m.channel, m.data1, m.data2)],
            (UsbMidiSend s2.USBPort (0x80 ||| m.channel) m.data1 m.data2).toList⟩)
    else
      (s, ⟨[], [], [], []⟩)
  else if m.type = 0xB0 then
    if m.data1 = 64 then
      if m.data2 > 63 then
        -- sustain press: capture the live mask, forward value 127
        let s1 := { s with
          SustainPedal := updf s.SustainPedal (m.channel - 1) ⟨1, s.PortStatus⟩ }
        let s2 := SetPort s1 s1.PortStatus
        (s2, ⟨[s1.PortStatus],
              [.controlChange 64 127 m.channel],
              [(0xB0 ||| m.channel, 64, 127)],
              (UsbMidiSend s2.USBPort (0xB0 ||| m.channel) 64 127).toList⟩)
      else
        -- sustain release: route the captured mask, forward value 0
        let s1 := { s with
          SustainPedal := updf s.SustainPedal (m.channel - 1)
            ⟨0, (s.SustainPedal (m.channel - 1)).Port⟩ }
        let s2 := SetPort s1 (s1.SustainPedal (m.channel - 1)).Port
        (s2, ⟨[(s1.SustainPedal (m.channel - 1)).Port],
              [.controlChange 64 0 m.channel],
              [(0xB0 ||| m.channel, 64, 0)],
              (UsbMidiSend s2.USBPort (0xB0 ||| m.channel) 64 0).toList⟩)
    else
      let s2 := SetPort s s.PortStatus
      (s2, ⟨[s.PortStatus],
            [.controlChange m.data1 m.data2 m.channel],
            [(0xB0 ||| m.channel, m.data1, m.data2)],
            (UsbMidiSend s2.USBPort (0xB0 ||| m.channel) m.data1 m.data2).toList⟩)
  else if m.type = 0xC0 then
    let s2 := SetPort s s.PortStatus
    (s2, ⟨[s.PortStatus],
          [.programChange m.data1 m.channel],
          [(0xC0 ||| m.channel, m.data1, m.data2)],
          (UsbMidiSend s2.USBPort (0xC0 ||| m.channel) m.data1 m.data2).toList⟩)
  else if m.type = 0xD0 then
    let s2 := SetPort s s.PortStatus
    (s2, ⟨[s.PortStatus],
          [.afterTouch m.data1 m.channel],
          [(0xD0 ||| m.channel, m.data1, m.data2)],
          (UsbMidiSend s2.USBPort (0xD0 ||| m.channel) m.data1 m.data2).toList⟩)
  else if m.type = 0xE0 then
    let s2 := SetPort s s.PortStatus
    (s2, ⟨[s.PortStatus],
          [.pitchBend (((m.data1 + (m.data2 <<< 7) : Nat) : Int) - 8192) m.channel],
          [(0xE0 ||| m.channel, m.data1, m.data2)],
          (UsbMidiSend s2.USBPort (0xE0 ||| m.channel) m.data1 m.data2).toList⟩)
  else
    (s, ⟨[], [], [], []⟩)

/-- `SwitchPorts(char pin)`: toggle one bit of `PortStatus` with XOR and
mirror the new bit on the button LED. -/
def SwitchPorts (s : ST4State) (pin : Nat) : ST4State :=
  let s1 :=
    if pin = 0 then { s with PortStatus := s.PortStatus ^^^ 1 }
    else if pin = 1 then { s with PortStatus := s.PortStatus ^^^ 2 }
    else if pin = 2 then { s with PortStatus := s.PortStatus ^^^ 4 }
    else if pin = 3 then { s with PortStatus := s.PortStatus ^^^ 8 }
    else s
  { s1 with ButtonLeds := updf s1.ButtonLeds pin ((s1.PortStatus >>> pin) &&& 1) }

/-- `DoButton(int btn, int status)`: on a change of level store it; on a
falling edge (press, `status == LOW`) toggle the port bit and persist
`PortStatus` to EEPROM address 8. -/
def DoButton (s : ST4State) (btn status : Nat) : ST4State :=
  if s.ButtonStatus btn = status then s
  else
    let s1 := { s with ButtonStatus := updf s.ButtonStatus btn status }
    if status = 0 then
      let s2 := SwitchPorts s1 btn
      { s2 with EEPROM8 := s2.PortStatus }
    else s1

/-- A sequence of button samples `(btn, level)` fed through `DoButton`. -/
def applyButtons (s : ST4State) (bs : List (Nat × Nat)) : ST4State :=
  bs.foldl (fun st p => DoButton st p.1 p.2) s

/-- The state after `setup()`: `PortStatus` restored from EEPROM, mux
lines driven LOW, button LEDs mirroring `PortStatus`, both memory tables
zeroed, all buttons idle (HIGH = pulled up). -/
def initState (eeprom : Nat) : ST4State :=
  { PortStatus := eeprom
    USBPort := 0
    MuxLines := fun _ => 0
    ButtonLeds := fun i => (eeprom >>> i) &&& 1
    ButtonStatus := fun _ => 1
    NoteMem := fun _ => ⟨0, 0⟩
    SustainPedal := fun _ => ⟨0, 0⟩
    EEPROM8 := eeprom }

/-! ## Basic lemmas -/

@[simp] theorem updf_same {α : Type} (f : Nat → α) (i : Nat) (v : α) :
    updf f i v i = v := by
  simp [updf]

@[simp] theorem updf_other {α : Type} (f : Nat → α) (i j : Nat) (v : α)
    (h : j ≠ i) : updf f i v j = f j := by
  simp [updf, h]

theorem UsbMidiSend_toList_ne_nil (u b1 b2 b3 : Nat) :
    (UsbMidiSend u b1 b2 b3).toList ≠ [] ↔ u ≠ 0 := by
  unfold UsbMidiSend
  split_ifs with h <;> simp [h]

theorem and_one_ne_zero_iff (p : Nat) : p &&& 1 ≠ 0 ↔ p &&& 1 = 1 := by
  rw [Nat.and_one_is_mod]
  omega

theorem SwitchPorts_NoteMem (s : ST4State) (pin : Nat) :
    (SwitchPorts s pin).NoteMem = s.NoteMem := by
  unfold SwitchPorts
  split_ifs <;> rfl

theorem SwitchPorts_SustainPedal (s : ST4State) (pin : Nat) :
    (SwitchPorts s pin).SustainPedal = s.SustainPedal := by
  unfold SwitchPorts
  split_ifs <;> rfl

theorem DoButton_NoteMem (s : ST4State) (btn status : Nat) :
    (DoButton s btn status).NoteMem = s.NoteMem := by
  unfold DoButton
  split_ifs <;> simp [SwitchPorts_NoteMem]

theorem DoButton_SustainPedal (s : ST4State) (btn status : Nat) :
    (DoButton s btn status).SustainPedal = s.SustainPedal := by
  unfold DoButton
  split_ifs <;> simp [SwitchPorts_SustainPedal]

theorem applyButtons_NoteMem (bs : List (Nat × Nat)) :
    ∀ s : ST4State, (applyButtons s bs).NoteMem = s.NoteMem := by
  induction bs with
  | nil => intro s; rfl
  | cons p t ih =>
      intro s
      have h1 : applyButtons s (p :: t) = applyButtons (DoButton s p.1 p.2) t := rfl
      rw [h1, ih, DoButton_NoteMem]

theorem applyButtons_SustainPedal (bs : List (Nat × Nat)) :
    ∀ s : ST4State, (applyButtons s bs).SustainPedal = s.SustainPedal := by
  induction bs with
  | nil => intro s; rfl
  | cons p t ih =>
      intro s
      have h1 : applyButtons s (p :: t) = applyButtons (DoButton s p.1 p.2) t := rfl
      rw [h1, ih, DoButton_SustainPedal]

/-! ## Claim theorems -/

/-- Claim C2: a Note-Off for a note whose memory entry is inactive is
suppressed entirely: no serial send and no USB send. -/
theorem noteOff_unmatched_dropped (s : ST4State) (N vel ch : Nat)
    (_hN : N < 128) (h : (s.NoteMem N).Status = 0) :
    (processEvent s ⟨0x80, N, vel, ch⟩).2.serial = [] ∧
    (processEvent s ⟨0x80, N, vel, ch⟩).2.usb = [] := by
  simp [processEvent, h]

theorem noteOff_unmatched_dropped_witness :
    (processEvent (initState 0) ⟨0x80, 60, 0, 1⟩).2.serial = [] ∧
    (processEvent (initState 0) ⟨0x80, 60, 0, 1⟩).2.usb = [] :=
  noteOff_unmatched_dropped (initState 0) 60 0 1 (by decide) (by decide)

/-- Claim C10: a suppressed Note-Off leaves the entire program state
unchanged — note memory, sustain table, active mask, USB gate flag and
multiplexer lines — and makes no `SetPort` call. -/
theorem noteOff_unmatched_frame (s : ST4State) (N vel ch : Nat)
    (_hN : N < 128) (h : (s.NoteMem N).Status = 0) :
    (processEvent s ⟨0x80, N, vel, ch⟩).1 = s ∧
    (processEvent s ⟨0x80, N, vel, ch⟩).2.setPortCalls = [] := by
  simp [processEvent, h]

theorem noteOff_unmatched_frame_witness :
    (processEvent (initState 0) ⟨0x80, 60, 0, 1⟩).1 = initState 0 ∧
    (processEvent (initState 0) ⟨0x80, 60, 0, 1⟩).2.setPortCalls = [] :=
  noteOff_unmatched_frame (initState 0) 60 0 1 (by decide) (by decide)

/-- Claim C7: the serial sink receives the pitch-bend value reassembled
as `data1 + data2 * 2^7 - 8192`, a signed value in `[-8192, 8191]`; in
particular `data1 = 0x00`, `data2 = 0x40` yields signed value 0. -/
theorem pitchBend_reassembly (s : ST4State) (d1 d2 ch : Nat)
    (h1 : d1 < 128) (h2 : d2 < 128) :
    (processEvent s ⟨0xE0, d1, d2, ch⟩).2.serial =
      [SerialMsg.pitchBend ((d1 : Int) + (d2 : Int) * 2 ^ 7 - 8192) ch] ∧
    (-8192 ≤ (d1 : Int) + (d2 : Int) * 2 ^ 7 - 8192 ∧
      (d1 : Int) + (d2 : Int) * 2 ^ 7 - 8192 ≤ 8191) ∧
    (processEvent s ⟨0xE0, 0x00, 0x40, ch⟩).2.serial =
      [SerialMsg.pitchBend 0 ch] := by
  refine ⟨?_, ?_, ?_⟩
  · simp [processEvent, Nat.shiftLeft_eq]
  · omega
  · simp [processEvent]

theorem pitchBend_reassembly_witness :
    (processEvent (initState 0) ⟨0xE0, 0x00, 0x40, 1⟩).2.serial =
      [SerialMsg.pitchBend 0 1] :=
  (pitchBend_reassembly (initState 0) 0 0x40 1 (by decide) (by decide)).2.2

/-- Claim C4 counterexample: at the freshly initialized state the sustain
entry of channel 1 is inactive, yet processing CC#64 value 0 on channel 1
still produces a serial-sink message — the release branch of the code
never tests `SustainPedal[ch].Status`, so an unmatched sustain-release is
not dropped. -/
theorem cc64_unmatched_release_not_dropped :
    ((initState 0).SustainPedal 0).Status = 0 ∧
    (processEvent (initState 0) ⟨0xB0, 64, 0, 1⟩).2.serial ≠ [] := by
  decide

/-- Claim C4 amended: an unmatched sustain-release (CC#64 value < 64 while
`SustainPedal[ch-1].Status = 0`) is processed exactly like a matched one:
`SetPort` is called with the stale captured port, the serial sink receives
CC#64 value 0, the USB sink receives it iff bit 0 of that stale port is 1,
and the entry's status stays 0. -/
theorem cc64_unmatched_release_forwarded (s : ST4State) (ch v : Nat)
    (_h1 : 1 ≤ ch) (_h2 : ch ≤ 16) (hv : v ≤ 63)
    (_hact : (s.SustainPedal (ch - 1)).Status = 0) :
    (processEvent s ⟨0xB0, 64, v, ch⟩).2.serial =
      [SerialMsg.controlChange 64 0 ch] ∧
    (processEvent s ⟨0xB0, 64, v, ch⟩).2.setPortCalls =
      [(s.SustainPedal (ch - 1)).Port] ∧
    ((processEvent s ⟨0xB0, 64, v, ch⟩).2.usb ≠ [] ↔
      (s.SustainPedal (ch - 1)).Port &&& 1 = 1) ∧
    ((processEvent s ⟨0xB0, 64, v, ch⟩).1.SustainPedal (ch - 1)).Status = 0 := by
  have hnot : ¬ (63 < v) := Nat.not_lt.mpr hv
  refine ⟨?_, ?_, ?_, ?_⟩ <;>
    simp [processEvent, hnot, SetPort, UsbMidiSend_toList_ne_nil,
      and_one_ne_zero_iff]

theorem cc64_unmatched_release_forwarded_witness :
    (processEvent (initState 0) ⟨0xB0, 64, 0, 1⟩).2.serial =
      [SerialMsg.controlChange 64 0 1] :=
  (cc64_unmatched_release_forwarded (initState 0) 1 0 (by decide) (by decide)
    (by decide) (by decide)).1

/-- Claim C8: from an idle (HIGH) button, two successive press edges of
the same button (press, release, press) return `PortStatus` to its
starting value — XOR toggling is an involution — and the second press
persists that restored value to the EEPROM byte. -/
theorem button_double_toggle (s : ST4State) (b : Nat) (hb : b < 4)
    (hidle : s.ButtonStatus b = 1) :
    (DoButton (DoButton (DoButton s b 0) b 1) b 0).PortStatus = s.PortStatus ∧
    (DoButton (DoButton (DoButton s b 0) b 1) b 0).EEPROM8 = s.PortStatus := by
  interval_cases b <;>
    simp [DoButton, SwitchPorts, hidle, updf, Nat.xor_cancel_right]

theorem button_double_toggle_witness :
    (DoButton (DoButton (DoButton (initState 5) 0 0) 0 1) 0 0).PortStatus = 5 ∧
    (DoButton (DoButton (DoButton (initState 5) 0 0) 0 1) 0 0).EEPROM8 = 5 :=
  button_double_toggle (initState 5) 0 (by decide) (by decide)

/-- Claim C9: note memory is keyed by note number only: a Note-On for
note `N` on channel `c1` followed by a Note-Off for `N` on a different
channel `c2` is treated as matched — the Note-Off consumes the entry, is
routed with the mask captured at Note-On time, and is forwarded (to both
sink boundaries) on channel `c2`. -/
theorem noteOff_matched_across_channels (s : ST4State) (N v1 c1 v2 c2 : Nat)
    (_hN : N < 128) (_hc : c1 ≠ c2) :
    let s1 := (processEvent s ⟨0x90, N, v1, c1⟩).1
    (processEvent s1 ⟨0x80, N, v2, c2⟩).2.setPortCalls = [s.PortStatus] ∧
    (processEvent s1 ⟨0x80, N, v2, c2⟩).2.serial = [SerialMsg.noteOff N v2 c2] ∧
    (processEvent s1 ⟨0x80, N, v2, c2⟩).2.usbSends = [(0x80 ||| c2, N, v2)] ∧
    ((processEvent s1 ⟨0x80, N, v2, c2⟩).1.NoteMem N).Status = 0 := by
  simp [processEvent, SetPort, updf]

theorem noteOff_matched_across_channels_witness :
    (processEvent (processEvent (initState 3) ⟨0x90, 60, 100, 1⟩).1
      ⟨0x80, 60, 64, 2⟩).2.setPortCalls = [3] :=
  (noteOff_matched_across_channels (initState 3) 60 100 1 64 2 (by decide)
    (by decide)).1

/-- Claim C1: a Note-On for `N` captures the live mask `M1`; after any
sequence of button-driven mask changes, the Note-Off for `N` makes a
single `SetPort` call with `M1` (not the live mask), clears the entry,
emits the Note-Off, and leaves the USB gate and multiplexer lines on
`M1` afterwards. -/
theorem noteOff_routes_captured_mask (s : ST4State) (N vel ch : Nat)
    (bs : List (Nat × Nat)) (vel2 ch2 : Nat) (_hN : N < 128) :
    (processEvent (applyButtons (processEvent s ⟨0x90, N, vel, ch⟩).1 bs)
      ⟨0x80, N, vel2, ch2⟩).2.setPortCalls = [s.PortStatus] ∧
    ((processEvent (applyButtons (processEvent s ⟨0x90, N, vel, ch⟩).1 bs)
      ⟨0x80, N, vel2, ch2⟩).1.NoteMem N).Status = 0 ∧
    (processEvent (applyButtons (processEvent s ⟨0x90, N, vel, ch⟩).1 bs)
      ⟨0x80, N, vel2, ch2⟩).2.serial = [SerialMsg.noteOff N vel2 ch2] ∧
    (processEvent (applyButtons (processEvent s ⟨0x90, N, vel, ch⟩).1 bs)
      ⟨0x80, N, vel2, ch2⟩).1.USBPort = s.PortStatus &&& 1 ∧
    ∀ i, i < 4 →
      (processEvent (applyButtons (processEvent s ⟨0x90, N, vel, ch⟩).1 bs)
        ⟨0x80, N, vel2, ch2⟩).1.MuxLines i = (s.PortStatus >>> i) &&& 1 := by
  have hmem : (applyButtons (processEvent s ⟨0x90, N, vel, ch⟩).1 bs).NoteMem =
      updf s.NoteMem N ⟨1, s.PortStatus⟩ := by
    rw [applyButtons_NoteMem]
    simp [processEvent, SetPort]
  generalize hg : applyButtons (processEvent s ⟨0x90, N, vel, ch⟩).1 bs = t
  rw [hg] at hmem
  simp [processEvent, hmem, SetPort, updf]
  all_goals intro i hi hi2
  all_goals exact absurd hi2 (by omega)

theorem noteOff_routes_captured_mask_witness :
    (processEvent
      (applyButtons (processEvent (initState 1) ⟨0x90, 60, 100, 1⟩).1 [(1, 0)])
      ⟨0x80, 60, 64, 1⟩).2.setPortCalls = [1] :=
  (noteOff_routes_captured_mask (initState 1) 60 100 1 [(1, 0)] 64 1
    (by decide)).1

/-- Claim C3: CC#64 with value ≥ 64 on channel `ch` captures the live
mask into the sustain entry of `ch`, routes the live mask and forwards
value 127 to both sink boundaries; after any button-driven mask changes,
CC#64 with value < 64 on the same channel routes the captured mask (not
the live one), forwards value 0 and clears the entry — leaving the note
memory and every other channel's sustain entry untouched. -/
theorem cc64_capture_release (s : ST4State) (ch v : Nat)
    (bs : List (Nat × Nat)) (v2 : Nat)
    (_hch1 : 1 ≤ ch) (_hch16 : ch ≤ 16) (hv : 63 < v) (hv2 : v2 ≤ 63) :
    (processEvent s ⟨0xB0, 64, v, ch⟩).1.SustainPedal (ch - 1) =
      ⟨1, s.PortStatus⟩ ∧
    (processEvent s ⟨0xB0, 64, v, ch⟩).2.setPortCalls = [s.PortStatus] ∧
    (processEvent s ⟨0xB0, 64, v, ch⟩).2.serial =
      [SerialMsg.controlChange 64 127 ch] ∧
    (processEvent s ⟨0xB0, 64, v, ch⟩).2.usbSends = [(0xB0 ||| ch, 64, 127)] ∧
    (processEvent (applyButtons (processEvent s ⟨0xB0, 64, v, ch⟩).1 bs)
      ⟨0xB0, 64, v2, ch⟩).2.setPortCalls = [s.PortStatus] ∧
    (processEvent (applyButtons (processEvent s ⟨0xB0, 64, v, ch⟩).1 bs)
      ⟨0xB0, 64, v2, ch⟩).2.serial = [SerialMsg.controlChange 64 0 ch] ∧
    (processEvent (applyButtons (processEvent s ⟨0xB0, 64, v, ch⟩).1 bs)
      ⟨0xB0, 64, v2, ch⟩).2.usbSends = [(0xB0 ||| ch, 64, 0)] ∧
    (processEvent (applyButtons (processEvent s ⟨0xB0, 64, v, ch⟩).1 bs)
      ⟨0xB0, 64, v2, ch⟩).1.SustainPedal (ch - 1) = ⟨0, s.PortStatus⟩ ∧
    (processEvent s ⟨0xB0, 64, v, ch⟩).1.NoteMem = s.NoteMem ∧
    (processEvent (applyButtons (processEvent s ⟨0xB0, 64, v, ch⟩).1 bs)
      ⟨0xB0, 64, v2, ch⟩).1.NoteMem =
      (applyButtons (processEvent s ⟨0xB0, 64, v, ch⟩).1 bs).NoteMem ∧
    ∀ j, j ≠ ch - 1 →
      (processEvent s ⟨0xB0, 64, v, ch⟩).1.SustainPedal j = s.SustainPedal j ∧
      (processEvent (applyButtons (processEvent s ⟨0xB0, 64, v, ch⟩).1 bs)
        ⟨0xB0, 64, v2, ch⟩).1.SustainPedal j =
        (applyButtons (processEvent s ⟨0xB0, 64, v, ch⟩).1 bs).SustainPedal j := by
  have hnot2 : ¬ (63 < v2) := Nat.not_lt.mpr hv2
  have hsus : (applyButtons (processEvent s ⟨0xB0, 64, v, ch⟩).1 bs).SustainPedal =
      updf s.SustainPedal (ch - 1) ⟨1, s.PortStatus⟩ := by
    rw [applyButtons_SustainPedal]
    simp [processEvent, hv, SetPort]
  generalize hg : applyButtons (processEvent s ⟨0xB0, 64, v, ch⟩).1 bs = t
  rw [hg] at hsus
  refine ⟨?_, ?_, ?_, ?_, ?_, ?_, ?_, ?_, ?_, ?_, ?_⟩ <;>
    simp [processEvent, hv, hnot2, hsus, SetPort, updf]
  intro j hj
  exact ⟨fun h => absurd h hj, fun h => absurd h hj⟩

theorem cc64_capture_release_witness :
    (processEvent
      (applyButtons (processEvent (initState 4) ⟨0xB0, 64, 127, 1⟩).1 [(2, 0)])
      ⟨0xB0, 64, 0, 1⟩).2.setPortCalls = [4] :=
  (cc64_capture_release (initState 4) 1 127 [(2, 0)] 0 (by decide) (by decide)
    (by decide) (by decide)).2.2.2.2.1

/-- Claim C5: for every incoming event, if the event is routed (exactly
one `SetPort` call, with mask `p`), the USB sink receives it iff bit 0 of
`p` is 1 while the serial sink receives exactly one message; if the event
is not routed (no `SetPort` call), neither sink receives anything. -/
theorem usb_gated_serial_unconditional (s : ST4State) (m : MidiMsg) :
    (∀ p, (processEvent s m).2.setPortCalls = [p] →
      ((processEvent s m).2.usb ≠ [] ↔ p &&& 1 = 1) ∧
      (processEvent s m).2.serial.length = 1) ∧
    ((processEvent s m).2.setPortCalls = [] →
      (processEvent s m).2.serial = [] ∧ (processEvent s m).2.usb = []) := by
  unfold processEvent
  split_ifs <;>
    refine ⟨fun p hp => ?_, fun hp => ?_⟩ <;>
    simp_all [SetPort, UsbMidiSend_toList_ne_nil, and_one_ne_zero_iff]

theorem usb_gated_serial_unconditional_witness :
    (processEvent (initState 1) ⟨0x90, 60, 100, 1⟩).2.usb ≠ [] :=
  (((usb_gated_serial_unconditional (initState 1) ⟨0x90, 60, 100, 1⟩).1 1
    (by decide)).1).mpr (by decide)

theorem usb_packet_channel (S ch u b2 b3 : Nat)
    (hS : S = 0x80 ∨ S = 0x90 ∨ S = 0xB0 ∨ S = 0xC0 ∨ S = 0xD0 ∨ S = 0xE0)
    (h1 : 1 ≤ ch) (h2 : ch ≤ 16) :
    ∀ pkt ∈ (UsbMidiSend u (S ||| ch) b2 b3).toList,
      pkt.byte1 &&& 0x0F = ch - 1 := by
  intro pkt hpkt
  unfold UsbMidiSend at hpkt
  split_ifs at hpkt with h
  · simp at hpkt
  · simp only [Option.toList_some, List.mem_singleton] at hpkt
    subst hpkt
    rcases hS with rfl | rfl | rfl | rfl | rfl | rfl <;>
      interval_cases ch <;> dsimp only <;> decide

set_option maxRecDepth 8192 in
theorem byte1_nibble_aux :
    ∀ b1 < 256, ((b1 &&& 0xF0) ||| ((b1 &&& 0x0F) + 255) % 256) &&& 0x0F =
      ((b1 &&& 0x0F) + 15) % 16 := by
  decide

/-- Claim C6: every forwarded event on input channel `c` (1–16) reaches
the serial sink with channel `c` unchanged, while the USB wire packet
carries channel `c - 1` in its status-byte low nibble; the off-by-one
translation is performed inside `UsbMidiSend` itself (third conjunct),
not at the routing-engine call sites. -/
theorem channel_translated_at_usb_boundary (s : ST4State) (m : MidiMsg)
    (h1 : 1 ≤ m.channel) (h2 : m.channel ≤ 16) :
    (∀ x ∈ (processEvent s m).2.serial, serialChannel x = m.channel) ∧
    (∀ pkt ∈ (processEvent s m).2.usb, pkt.byte1 &&& 0x0F = m.channel - 1) ∧
    (∀ u b1 b2 b3 pkt, b1 < 256 → UsbMidiSend u b1 b2 b3 = some pkt →
      pkt.byte1 &&& 0x0F = ((b1 &&& 0x0F) + 15) % 16) := by
  refine ⟨?_, ?_, ?_⟩
  · unfold processEvent
    split_ifs <;> intro x hx <;> simp_all [serialChannel]
  · unfold processEvent
    split_ifs <;> dsimp only <;>
      first
        | exact usb_packet_channel _ _ _ _ _ (by decide) h1 h2
        | simp
  · intro u b1 b2 b3 pkt hb hsend
    unfold UsbMidiSend at hsend
    split_ifs at hsend with h
    simp only [Option.some_inj] at hsend
    rw [← hsend]
    exact byte1_nibble_aux b1 hb

theorem channel_translated_at_usb_boundary_witness :
    (⟨9, 255, 60, 100⟩ : UsbPacket).byte1 &&& 0x0F = 16 - 1 :=
  (channel_translated_at_usb_boundary (initState 1) ⟨0x90, 60, 100, 16⟩
    (by decide) (by decide)).2.1 ⟨9, 255, 60, 100⟩ (by decide)

end ST4
